import Mathlib

/-!
# Verification of the tunnel library (tunnel.h, tunnel.c)

The library wraps a handful of kernel calls (open, ioctl, socket, close) that
create, configure and release a TUN/TAP interface.  The embedding below is a
state-passing translation of tunnel.c:

* the kernel is an arbitrary oracle `Kernel` that answers every call, given the
  history of the calls issued so far;
* the `World` records, in order, the kernel calls the code issues and the lines
  it writes to stderr;
* every C function becomes a Lean function from the kernel, the world and the
  `tunnel_t` it is given to an `Outcome`: the returned value, the `tunnel_t`
  left behind and the new world.
-/

namespace Tunnel

/-! ## Data model (tunnel.h) -/

/-- Tunnel type of tunnel.h, lines 47-50: a C enum, so TAP is 0 and TUN is 1. -/
inductive tunnel_type_t where
  | TAP
  | TUN
deriving DecidableEq

/-- The part of the system structure `struct ifreq` that tunnel.c reads or writes:
the 16 byte name buffer `ifr_name` and the `short` member `ifr_flags`. -/
structure ifreq where
  ifr_name : List Nat
  ifr_flags : Int
deriving DecidableEq

/-- Tunnel structure of tunnel.h, lines 54-58. -/
structure tunnel_t where
  fd : Int
  type : tunnel_type_t
  ifr : ifreq
deriving DecidableEq

/-! ## Constants of the system headers (Linux values) -/

/-- Size of the name buffer of `struct ifreq` (net/if.h). -/
def IFNAMSIZ : Nat := 16

def IFF_UP : Int := 0x1
def IFF_RUNNING : Int := 0x40
def IFF_TUN : Int := 0x0001
def IFF_TAP : Int := 0x0002
def IFF_NO_PI : Int := 0x1000

def TUNSETIFF : Nat := 0x400454ca
def TUNSETPERSIST : Nat := 0x400454cb
def SIOCGIFFLAGS : Nat := 0x8913
def SIOCSIFFLAGS : Nat := 0x8914

def O_RDWR : Int := 2
def AF_INET : Int := 2
def SOCK_DGRAM : Int := 2

/-! ## The kernel and the world -/

/-- One kernel call as the code issues it, with its arguments.  The two ioctl
forms differ in the third argument: a pointer to a `struct ifreq` (the call
records the structure the pointer refers to at the time of the call) or an
integer passed by value. -/
inductive Call where
  | sys_open (path : String) (flags : Int)
  | sys_socket (domain : Int) (kind : Int) (protocol : Int)
  | sys_close (fd : Int)
  | sys_ioctl_ifr (fd : Int) (request : Nat) (arg : ifreq)
  | sys_ioctl_int (fd : Int) (request : Nat) (arg : Int)
deriving DecidableEq

/-- The kernel as an oracle.  Each answer may depend on the calls issued before
(the first argument) and on the arguments of the call.  An ioctl that takes a
pointer to a `struct ifreq` answers with its return value and with the contents
it leaves in the structure. -/
structure Kernel where
  sys_open : List Call → String → Int → Int
  sys_socket : List Call → Int → Int → Int → Int
  sys_close : List Call → Int → Int
  sys_ioctl_ifr : List Call → Int → Nat → ifreq → Int × ifreq
  sys_ioctl_int : List Call → Int → Nat → Int → Int

/-- One line written to stderr.  `error msg` is `PERROR(msg)` (the text of
`strerror(errno)` that follows the message is not modelled); `debug fmt name arg`
is `LOG_DEBUG(fmt, TUNNEL_NAME(tun)[, arg])`. -/
inductive LogLine where
  | error (msg : String)
  | debug (fmt : String) (name : List Nat) (arg : Option Int)
deriving DecidableEq

/-- What the code has done so far: the kernel calls, oldest first, and the lines
written to stderr, oldest first. -/
structure World where
  calls : List Call
  log : List LogLine
deriving DecidableEq

/-- Record a kernel call. -/
def World.call (w : World) (c : Call) : World :=
  { w with calls := w.calls ++ [c] }

/-- Record a line of stderr. -/
def World.say (w : World) (l : LogLine) : World :=
  { w with log := w.log ++ [l] }

/-- What a C function leaves behind: its return value, the structure behind the
`tunnel_t *` argument and the world. -/
structure Outcome (α : Type) where
  ret : α
  tun : tunnel_t
  world : World
deriving DecidableEq

/-! ## C library helpers -/

/-- Conversion of an `int` value to `short` on a store to `ifr_flags`
(two's complement, 16 bits). -/
def toShort (x : Int) : Int := (x + 32768) % 65536 - 32768

/-- The values a `short` can hold. -/
def isShort (x : Int) : Prop := -32768 ≤ x ∧ x < 32768

instance (x : Int) : Decidable (isShort x) := by
  unfold isShort; infer_instance

/-- The C function `strlen`.  A C string is given by the bytes at the pointer; the
string ends before the first zero byte (or at the end of the list, where the
terminating zero byte stands). -/
def strlen (s : List Nat) : Nat := (s.takeWhile (fun c => c != 0)).length

/-- The C function `strncpy(dest, src, n)`: exactly `n` bytes of `dest` are
written, the bytes of the string `src` first and zero bytes after them.  Writing
past the end of `dest` is undefined behaviour: `none`. -/
def strncpy (dest src : List Nat) (n : Nat) : Option (List Nat) :=
  if n ≤ dest.length then
    let body := (src.takeWhile (fun c => c != 0)).take n
    some (body ++ List.replicate (n - body.length) 0 ++ dest.drop n)
  else none

/-- Effect of `bzero(tun, sizeof(tunnel_t))`: every member is zero, so the
descriptor is 0, the type is the enumerator with value 0 and the request
structure is all zero. -/
def bzero (_tun : tunnel_t) : tunnel_t :=
  { fd := 0, type := tunnel_type_t.TAP,
    ifr := { ifr_name := List.replicate IFNAMSIZ 0, ifr_flags := 0 } }

/-- The compound assignment of tunnel.c line 100,
`tun->ifr.ifr_flags |= IFF_UP | IFF_RUNNING`, as a function of the old value. -/
def set_up_flags (f : Int) : Int := toShort (Int.lor f (Int.lor IFF_UP IFF_RUNNING))

/-- The compound assignment of tunnel.c line 129,
`tun->ifr.ifr_flags &= ~(IFF_UP | IFF_RUNNING)`, as a function of the old value. -/
def set_down_flags (f : Int) : Int :=
  toShort (Int.land f (Int.lnot (Int.lor IFF_UP IFF_RUNNING)))

/-- The statement of tunnel.c line 30,
`if (name) strncpy(TUNNEL_NAME(tun), name, strlen(name)+1)`, as a function of the
name buffer: the new contents of the buffer, or `none` when the copy is undefined
behaviour. -/
def copy_name (dest : List Nat) (name : Option (List Nat)) : Option (List Nat) :=
  match name with
  | none => some dest
  | some s => strncpy dest s (strlen s + 1)

/-- The two assignments of tunnel.c lines 31-32,
`ifr_flags = (type == TUN? IFF_TUN : IFF_TAP); ifr_flags |= IFF_NO_PI`: the value
`ifr_flags` holds after them. -/
def attach_flags (type : tunnel_type_t) : Int :=
  toShort (Int.lor (toShort (if type = tunnel_type_t.TUN then IFF_TUN else IFF_TAP)) IFF_NO_PI)

/-! ## tunnel.c -/

/-- Translation of tunnel_close, tunnel.c lines 81-83.  The value `close` returns is dropped. -/
def tunnel_close (K : Kernel) (w : World) (tun : tunnel_t) : Outcome Unit :=
  let _rc := K.sys_close w.calls tun.fd
  { ret := (), tun := tun, world := w.call (Call.sys_close tun.fd) }

/-- Translation of tunnel_set_persistence, tunnel.c lines 58-68. -/
def tunnel_set_persistence (K : Kernel) (w : World) (tun : tunnel_t) (persist : Bool) :
    Outcome Int :=
  let arg : Int := if persist then 1 else 0
  let w1 := w.say (LogLine.debug "Set tunnel %s persistency to %d" tun.ifr.ifr_name (some arg))
  let rc := K.sys_ioctl_int w1.calls tun.fd TUNSETPERSIST arg
  let w2 := w1.call (Call.sys_ioctl_int tun.fd TUNSETPERSIST arg)
  if 0 < rc then
    { ret := -1, tun := tun, world := w2.say (LogLine.error "ioctl()") }
  else
    { ret := 0, tun := tun, world := w2 }

/-- Translation of tunnel_delete, tunnel.c lines 73-76.  The body ends without a
`return` statement, so the function hands no value to its caller: `none`. -/
def tunnel_delete (K : Kernel) (w : World) (tun : tunnel_t) : Outcome (Option Int) :=
  let w1 := w.say (LogLine.debug "Deleting tunnel %s." tun.ifr.ifr_name none)
  let p := tunnel_set_persistence K w1 tun false
  { ret := none, tun := p.tun, world := p.world }

/-- Translation of tunnel_create, tunnel.c lines 16-47.  The result is `none` when
the copy of the name is undefined behaviour. -/
def tunnel_create (K : Kernel) (w : World) (tun : tunnel_t) (type : tunnel_type_t)
    (name : Option (List Nat)) (persist : Bool) : Option (Outcome Int) :=
  let tun0 := bzero tun
  let fd := K.sys_open w.calls "/dev/net/tun" O_RDWR
  let w1 := w.call (Call.sys_open "/dev/net/tun" O_RDWR)
  let tun1 : tunnel_t := { tun0 with fd := fd }
  if fd < 0 then
    some { ret := -1, tun := tun1, world := w1.say (LogLine.error "open()") }
  else
    match copy_name tun1.ifr.ifr_name name with
    | none => none
    | some nm =>
      let req : ifreq := { ifr_name := nm, ifr_flags := attach_flags type }
      let rep := K.sys_ioctl_ifr w1.calls fd TUNSETIFF req
      let w2 := w1.call (Call.sys_ioctl_ifr fd TUNSETIFF req)
      let tun2 : tunnel_t := { tun1 with ifr := rep.2 }
      if rep.1 < 0 then
        let c := tunnel_close K (w2.say (LogLine.error "ioctl()")) tun2
        some { ret := -1, tun := c.tun, world := c.world }
      else
        let w3 := w2.say (LogLine.debug "Tunnel interface name: %s" tun2.ifr.ifr_name none)
        let p := tunnel_set_persistence K w3 tun2 persist
        some { ret := 0, tun := p.tun, world := p.world }

/-- Translation of tunnel_set_up, tunnel.c lines 89-112. -/
def tunnel_set_up (K : Kernel) (w : World) (tun : tunnel_t) : Outcome Int :=
  let w0 := w.say (LogLine.debug "Setting tunnel %s to UP." tun.ifr.ifr_name none)
  let sock_fd := K.sys_socket w0.calls AF_INET SOCK_DGRAM 0
  let w1 := w0.call (Call.sys_socket AF_INET SOCK_DGRAM 0)
  if sock_fd < 0 then
    { ret := -1, tun := tun, world := w1.say (LogLine.error "socket()") }
  else
    let req : ifreq := { tun.ifr with ifr_flags := set_up_flags tun.ifr.ifr_flags }
    let rep := K.sys_ioctl_ifr w1.calls sock_fd SIOCGIFFLAGS req
    let w2 := w1.call (Call.sys_ioctl_ifr sock_fd SIOCGIFFLAGS req)
    let tun2 : tunnel_t := { tun with ifr := rep.2 }
    if rep.1 < 0 then
      let w3 := w2.say (LogLine.error "ioctl()")
      let _rc := K.sys_close w3.calls sock_fd
      { ret := -1, tun := tun2, world := w3.call (Call.sys_close sock_fd) }
    else
      let _rc := K.sys_close w2.calls sock_fd
      { ret := 0, tun := tun2, world := w2.call (Call.sys_close sock_fd) }

/-- Translation of tunnel_set_down, tunnel.c lines 118-141. -/
def tunnel_set_down (K : Kernel) (w : World) (tun : tunnel_t) : Outcome Int :=
  let w0 := w.say (LogLine.debug "Setting tunnel %s to UP." tun.ifr.ifr_name none)
  let sock_fd := K.sys_socket w0.calls AF_INET SOCK_DGRAM 0
  let w1 := w0.call (Call.sys_socket AF_INET SOCK_DGRAM 0)
  if sock_fd < 0 then
    { ret := -1, tun := tun, world := w1.say (LogLine.error "socket()") }
  else
    let req : ifreq := { tun.ifr with ifr_flags := set_down_flags tun.ifr.ifr_flags }
    let rep := K.sys_ioctl_ifr w1.calls sock_fd SIOCGIFFLAGS req
    let w2 := w1.call (Call.sys_ioctl_ifr sock_fd SIOCGIFFLAGS req)
    let tun2 : tunnel_t := { tun with ifr := rep.2 }
    if rep.1 < 0 then
      let w3 := w2.say (LogLine.error "ioctl()")
      let _rc := K.sys_close w3.calls sock_fd
      { ret := -1, tun := tun2, world := w3.call (Call.sys_close sock_fd) }
    else
      let _rc := K.sys_close w2.calls sock_fd
      { ret := 0, tun := tun2, world := w2.call (Call.sys_close sock_fd) }

/-! ## Concrete kernels and inputs used to evaluate the code -/

/-- A kernel that answers `open` with `o`, the attach and flags requests with `a`
(leaving the request structure as it got it), the persistence request with `p`,
`socket` with `s` and `close` with 0. -/
def replyKernel (o a p s : Int) : Kernel :=
  { sys_open := fun _ _ _ => o
    sys_socket := fun _ _ _ _ => s
    sys_close := fun _ _ => 0
    sys_ioctl_ifr := fun _ _ _ r => (a, r)
    sys_ioctl_int := fun _ _ _ _ => p }

/-- The world before any call. -/
def World.start : World := { calls := [], log := [] }

/-- The bytes of the string "tun0". -/
def tun0_name : List Nat := [116, 117, 110, 48]

/-- A `tunnel_t` before `tunnel_create`, holding arbitrary values: `tunnel_create`
zeroes it first. -/
def blank : tunnel_t :=
  { fd := -1, type := tunnel_type_t.TUN, ifr := { ifr_name := [], ifr_flags := 0 } }

/-- The `tunnel_t` that `tunnel_create(&tun, TUN, "tun0", persist)` leaves when open()
answers 3 and the kernel accepts the attach request as it stands. -/
def created : tunnel_t :=
  { fd := 3, type := tunnel_type_t.TAP,
    ifr := { ifr_name := tun0_name ++ List.replicate 12 0, ifr_flags := 0x1001 } }

/-! ## Notions used to state the properties -/

/-- The requested name as a 16 byte name field: the bytes of the C string followed by
zero bytes, and 16 zero bytes when no name is requested. -/
def padded_name (name : Option (List Nat)) : List Nat :=
  match name with
  | none => List.replicate 16 0
  | some s => s.takeWhile (fun c => c != 0) ++ List.replicate (16 - strlen s) 0

/-- The calls issued between the world `w` and the later world `w2`. -/
def issued (w w2 : World) : List Call := w2.calls.drop w.calls.length


/-! ## Bit operations on flags -/

theorem testBit_ofNat (n i : Nat) : Int.testBit (Int.ofNat n) i = n.testBit i := rfl

theorem testBit_negSucc (n i : Nat) : Int.testBit (Int.negSucc n) i = !n.testBit i := rfl

theorem nat_testBit_self_add (n m : Nat) : n.testBit (n + m) = false :=
  Nat.testBit_lt_two_pow
    (lt_of_lt_of_le (Nat.lt_two_pow n) (Nat.pow_le_pow_right (by decide) (Nat.le_add_right n m)))

/-- Two integers with the same bits are equal. -/
theorem int_eq_of_testBit_eq (a b : Int) (h : ∀ i, a.testBit i = b.testBit i) : a = b := by
  cases a with
  | ofNat n =>
    cases b with
    | ofNat m =>
      exact congrArg Int.ofNat (Nat.eq_of_testBit_eq fun i => by simpa [testBit_ofNat] using h i)
    | negSucc m =>
      have h1 := h (n + m)
      rw [testBit_ofNat, testBit_negSucc, nat_testBit_self_add,
        Nat.add_comm, nat_testBit_self_add] at h1
      exact absurd h1 (by decide)
  | negSucc n =>
    cases b with
    | ofNat m =>
      have h1 := h (n + m)
      rw [testBit_ofNat, testBit_negSucc, nat_testBit_self_add,
        Nat.add_comm, nat_testBit_self_add] at h1
      exact absurd h1 (by decide)
    | negSucc m =>
      refine congrArg Int.negSucc (Nat.eq_of_testBit_eq fun i => ?_)
      have h1 := h i
      rw [testBit_negSucc, testBit_negSucc] at h1
      simpa using h1

theorem nat_ldiff_lt (n m : Nat) (h : n < 32768) : Nat.ldiff n m < 32768 := by
  have h15 : n < 2 ^ 15 := h
  refine Nat.lt_pow_two_of_testBit (n := 15) _ fun i hi => ?_
  rw [Nat.testBit_ldiff]
  have : n.testBit i = false :=
    Nat.testBit_lt_two_pow (lt_of_lt_of_le h15 (Nat.pow_le_pow_right (by decide) hi))
  rw [this]
  rfl

theorem nat_lor_lt (n : Nat) (h : n < 32768) : n ||| 65 < 32768 :=
  Nat.or_lt_two_pow (n := 15) h (by decide)

theorem up_running_eq : Int.lor IFF_UP IFF_RUNNING = 65 := by decide

theorem toShort_of_isShort (x : Int) (h : isShort x) : toShort x = x := by
  unfold isShort at h
  unfold toShort
  omega

theorem isShort_lor (f : Int) (h : isShort f) : isShort (Int.lor f 65) := by
  unfold isShort at h ⊢
  cases f with
  | ofNat n =>
    have hn : n < 32768 := by have := h.2; simp only [Int.ofNat_eq_coe] at this; omega
    have h2 := nat_lor_lt n hn
    show -32768 ≤ ((n ||| 65 : Nat) : Int) ∧ ((n ||| 65 : Nat) : Int) < 32768
    omega
  | negSucc n =>
    have hn : n < 32768 := by have := h.1; simp only [Int.negSucc_eq] at this; omega
    have h2 := nat_ldiff_lt n 65 hn
    show -32768 ≤ Int.negSucc (Nat.ldiff n 65) ∧ Int.negSucc (Nat.ldiff n 65) < 32768
    simp only [Int.negSucc_eq]
    omega

theorem isShort_land_lnot (f : Int) (h : isShort f) : isShort (Int.land f (Int.lnot 65)) := by
  unfold isShort at h ⊢
  cases f with
  | ofNat n =>
    have hn : n < 32768 := by have := h.2; simp only [Int.ofNat_eq_coe] at this; omega
    have h2 := nat_ldiff_lt n 65 hn
    show -32768 ≤ ((Nat.ldiff n 65 : Nat) : Int) ∧ ((Nat.ldiff n 65 : Nat) : Int) < 32768
    omega
  | negSucc n =>
    have hn : n < 32768 := by have := h.1; simp only [Int.negSucc_eq] at this; omega
    have h2 := nat_lor_lt n hn
    show -32768 ≤ Int.negSucc (n ||| 65) ∧ Int.negSucc (n ||| 65) < 32768
    simp only [Int.negSucc_eq]
    omega

theorem set_up_flags_eq (f : Int) (h : isShort f) :
    set_up_flags f = Int.lor f (Int.lor IFF_UP IFF_RUNNING) := by
  unfold set_up_flags
  rw [up_running_eq]
  exact toShort_of_isShort _ (isShort_lor f h)

theorem set_down_flags_eq (f : Int) (h : isShort f) :
    set_down_flags f = Int.land f (Int.lnot (Int.lor IFF_UP IFF_RUNNING)) := by
  unfold set_down_flags
  rw [up_running_eq]
  exact toShort_of_isShort _ (isShort_land_lnot f h)

theorem isShort_set_up_flags (f : Int) (h : isShort f) : isShort (set_up_flags f) := by
  rw [set_up_flags_eq f h, up_running_eq]
  exact isShort_lor f h

theorem isShort_set_down_flags (f : Int) (h : isShort f) : isShort (set_down_flags f) := by
  rw [set_down_flags_eq f h, up_running_eq]
  exact isShort_land_lnot f h

theorem testBit_set_up_flags (f : Int) (h : isShort f) (i : Nat) :
    (set_up_flags f).testBit i = (f.testBit i || (IFF_UP.testBit i || IFF_RUNNING.testBit i)) := by
  rw [set_up_flags_eq f h, Int.testBit_lor, Int.testBit_lor]

theorem testBit_set_down_flags (f : Int) (h : isShort f) (i : Nat) :
    (set_down_flags f).testBit i =
      (f.testBit i && !(IFF_UP.testBit i || IFF_RUNNING.testBit i)) := by
  rw [set_down_flags_eq f h, Int.testBit_land, Int.testBit_lnot, Int.testBit_lor]

/-- The value `set_down_flags` gives for the flags a create of kind TUN leaves. -/
theorem set_down_flags_created : set_down_flags 0x1001 = 0x1000 := by
  refine int_eq_of_testBit_eq _ _ fun i => ?_
  rw [testBit_set_down_flags _ (by decide)]
  show (Nat.testBit 4097 i && !(Nat.testBit 1 i || Nat.testBit 64 i)) = Nat.testBit 4096 i
  rcases Nat.lt_or_ge i 13 with hi | hi
  · interval_cases i <;> decide
  · have h1 : Nat.testBit 4097 i = false :=
      Nat.testBit_lt_two_pow (lt_of_lt_of_le (by decide : 4097 < 2 ^ 13)
        (Nat.pow_le_pow_right (by decide) hi))
    have h2 : Nat.testBit 4096 i = false :=
      Nat.testBit_lt_two_pow (lt_of_lt_of_le (by decide : 4096 < 2 ^ 13)
        (Nat.pow_le_pow_right (by decide) hi))
    rw [h1, h2]
    rfl

/-! ## Shared lemmas -/

theorem say_calls (w : World) (l : LogLine) : (w.say l).calls = w.calls := rfl

theorem call_calls (w : World) (c : Call) : (w.call c).calls = w.calls ++ [c] := rfl

theorem tunnel_set_persistence_calls (K : Kernel) (w : World) (tun : tunnel_t) (persist : Bool) :
    (tunnel_set_persistence K w tun persist).world.calls =
      w.calls ++ [Call.sys_ioctl_int tun.fd TUNSETPERSIST (if persist then 1 else 0)] := by
  unfold tunnel_set_persistence
  dsimp only
  split_ifs <;> rfl

theorem tunnel_set_persistence_tun (K : Kernel) (w : World) (tun : tunnel_t) (persist : Bool) :
    (tunnel_set_persistence K w tun persist).tun = tun := by
  unfold tunnel_set_persistence
  dsimp only
  split_ifs <;> rfl

/-- The outcome of tunnel_create when open() fails. -/
theorem tunnel_create_open_failed (K : Kernel) (w : World) (tun : tunnel_t)
    (type : tunnel_type_t) (name : Option (List Nat)) (persist : Bool)
    (hfd : K.sys_open w.calls "/dev/net/tun" O_RDWR < 0) :
    tunnel_create K w tun type name persist =
      some { ret := -1
             tun := { bzero tun with fd := K.sys_open w.calls "/dev/net/tun" O_RDWR }
             world := { calls := w.calls ++ [Call.sys_open "/dev/net/tun" O_RDWR]
                        log := w.log ++ [LogLine.error "open()"] } } := by
  unfold tunnel_create
  simp only []
  rw [if_pos hfd]
  rfl

/-- The outcome of tunnel_create is undefined when open() succeeds and the copy of the
name is undefined. -/
theorem tunnel_create_copy_undefined (K : Kernel) (w : World) (tun : tunnel_t)
    (type : tunnel_type_t) (name : Option (List Nat)) (persist : Bool)
    (hfd : 0 ≤ K.sys_open w.calls "/dev/net/tun" O_RDWR)
    (hcopy : copy_name (List.replicate IFNAMSIZ 0) name = none) :
    tunnel_create K w tun type name persist = none := by
  unfold tunnel_create
  simp only []
  rw [if_neg (not_lt.mpr hfd)]
  have hc : copy_name ({ bzero tun with fd := K.sys_open w.calls "/dev/net/tun" O_RDWR } :
      tunnel_t).ifr.ifr_name name = none := hcopy
  rw [hc]

/-- The outcome of tunnel_create when open() succeeds and the attach ioctl fails. -/
theorem tunnel_create_attach_failed (K : Kernel) (w : World) (tun : tunnel_t)
    (type : tunnel_type_t) (name : Option (List Nat)) (persist : Bool) (nm : List Nat)
    (hfd : 0 ≤ K.sys_open w.calls "/dev/net/tun" O_RDWR)
    (hcopy : copy_name (List.replicate IFNAMSIZ 0) name = some nm)
    (hrep : (K.sys_ioctl_ifr (w.calls ++ [Call.sys_open "/dev/net/tun" O_RDWR])
      (K.sys_open w.calls "/dev/net/tun" O_RDWR) TUNSETIFF
      { ifr_name := nm, ifr_flags := attach_flags type }).1 < 0) :
    tunnel_create K w tun type name persist =
      some { ret := -1
             tun := { fd := K.sys_open w.calls "/dev/net/tun" O_RDWR
                      type := tunnel_type_t.TAP
                      ifr := (K.sys_ioctl_ifr (w.calls ++ [Call.sys_open "/dev/net/tun" O_RDWR])
                        (K.sys_open w.calls "/dev/net/tun" O_RDWR) TUNSETIFF
                        { ifr_name := nm, ifr_flags := attach_flags type }).2 }
             world := { calls := w.calls ++ [Call.sys_open "/dev/net/tun" O_RDWR,
                          Call.sys_ioctl_ifr (K.sys_open w.calls "/dev/net/tun" O_RDWR) TUNSETIFF
                            { ifr_name := nm, ifr_flags := attach_flags type },
                          Call.sys_close (K.sys_open w.calls "/dev/net/tun" O_RDWR)]
                        log := w.log ++ [LogLine.error "ioctl()"] } } := by
  unfold tunnel_create
  simp only []
  rw [if_neg (not_lt.mpr hfd)]
  have hc : copy_name ({ bzero tun with fd := K.sys_open w.calls "/dev/net/tun" O_RDWR } :
      tunnel_t).ifr.ifr_name name = some nm := hcopy
  rw [hc]
  simp only [call_calls]
  rw [if_pos hrep]
  simp [tunnel_close, World.call, World.say, bzero]

/-- The outcome of tunnel_create when open() and the attach ioctl succeed. -/
theorem tunnel_create_attached (K : Kernel) (w : World) (tun : tunnel_t)
    (type : tunnel_type_t) (name : Option (List Nat)) (persist : Bool) (nm : List Nat)
    (hfd : 0 ≤ K.sys_open w.calls "/dev/net/tun" O_RDWR)
    (hcopy : copy_name (List.replicate IFNAMSIZ 0) name = some nm)
    (hrep : 0 ≤ (K.sys_ioctl_ifr (w.calls ++ [Call.sys_open "/dev/net/tun" O_RDWR])
      (K.sys_open w.calls "/dev/net/tun" O_RDWR) TUNSETIFF
      { ifr_name := nm, ifr_flags := attach_flags type }).1) :
    ∃ r, tunnel_create K w tun type name persist = some r ∧ r.ret = 0 ∧
      r.tun = { fd := K.sys_open w.calls "/dev/net/tun" O_RDWR
                type := tunnel_type_t.TAP
                ifr := (K.sys_ioctl_ifr (w.calls ++ [Call.sys_open "/dev/net/tun" O_RDWR])
                  (K.sys_open w.calls "/dev/net/tun" O_RDWR) TUNSETIFF
                  { ifr_name := nm, ifr_flags := attach_flags type }).2 } ∧
      r.world.calls = w.calls ++ [Call.sys_open "/dev/net/tun" O_RDWR,
        Call.sys_ioctl_ifr (K.sys_open w.calls "/dev/net/tun" O_RDWR) TUNSETIFF
          { ifr_name := nm, ifr_flags := attach_flags type },
        Call.sys_ioctl_int (K.sys_open w.calls "/dev/net/tun" O_RDWR) TUNSETPERSIST
          (if persist then 1 else 0)] := by
  unfold tunnel_create
  simp only []
  rw [if_neg (not_lt.mpr hfd)]
  have hc : copy_name ({ bzero tun with fd := K.sys_open w.calls "/dev/net/tun" O_RDWR } :
      tunnel_t).ifr.ifr_name name = some nm := hcopy
  rw [hc]
  simp only [call_calls]
  rw [if_neg (not_lt.mpr hrep)]
  refine ⟨_, rfl, rfl, ?_, ?_⟩
  · simp only [tunnel_set_persistence_tun]
    rfl
  · simp only [tunnel_set_persistence_calls, say_calls, call_calls, List.append_assoc]
    rfl

/-- The outcome of tunnel_set_up when socket() fails. -/
theorem tunnel_set_up_socket_failed (K : Kernel) (w : World) (tun : tunnel_t)
    (hs : K.sys_socket w.calls AF_INET SOCK_DGRAM 0 < 0) :
    tunnel_set_up K w tun =
      { ret := -1,
         tun := tun,
         world := { calls := w.calls ++ [Call.sys_socket AF_INET SOCK_DGRAM 0],
                    log := w.log ++ [LogLine.debug "Setting tunnel %s to UP." tun.ifr.ifr_name none,
                      LogLine.error "socket()"] } } := by
  unfold tunnel_set_up
  simp only [say_calls]
  rw [if_pos hs]
  simp [World.call, World.say]

/-- The outcome of tunnel_set_up when socket() succeeds and the flags ioctl fails. -/
theorem tunnel_set_up_ioctl_failed (K : Kernel) (w : World) (tun : tunnel_t)
    (hs : 0 ≤ K.sys_socket w.calls AF_INET SOCK_DGRAM 0)
    (hrep : (K.sys_ioctl_ifr (w.calls ++ [Call.sys_socket AF_INET SOCK_DGRAM 0])
      (K.sys_socket w.calls AF_INET SOCK_DGRAM 0) SIOCGIFFLAGS
      { tun.ifr with ifr_flags := set_up_flags tun.ifr.ifr_flags }).1 < 0) :
    tunnel_set_up K w tun =
      { ret := -1,
         tun := { tun with ifr := (K.sys_ioctl_ifr
           (w.calls ++ [Call.sys_socket AF_INET SOCK_DGRAM 0])
           (K.sys_socket w.calls AF_INET SOCK_DGRAM 0) SIOCGIFFLAGS
           { tun.ifr with ifr_flags := set_up_flags tun.ifr.ifr_flags }).2 },
         world := { calls := w.calls ++ [Call.sys_socket AF_INET SOCK_DGRAM 0,
                      Call.sys_ioctl_ifr (K.sys_socket w.calls AF_INET SOCK_DGRAM 0) SIOCGIFFLAGS
                        { tun.ifr with ifr_flags := set_up_flags tun.ifr.ifr_flags },
                      Call.sys_close (K.sys_socket w.calls AF_INET SOCK_DGRAM 0)],
                    log := w.log ++ [LogLine.debug "Setting tunnel %s to UP." tun.ifr.ifr_name none,
                      LogLine.error "ioctl()"] } } := by
  unfold tunnel_set_up
  simp only [say_calls, call_calls]
  rw [if_neg (not_lt.mpr hs), if_pos hrep]
  simp [World.call, World.say]

/-- The outcome of tunnel_set_up when socket() and the flags ioctl succeed. -/
theorem tunnel_set_up_done (K : Kernel) (w : World) (tun : tunnel_t)
    (hs : 0 ≤ K.sys_socket w.calls AF_INET SOCK_DGRAM 0)
    (hrep : 0 ≤ (K.sys_ioctl_ifr (w.calls ++ [Call.sys_socket AF_INET SOCK_DGRAM 0])
      (K.sys_socket w.calls AF_INET SOCK_DGRAM 0) SIOCGIFFLAGS
      { tun.ifr with ifr_flags := set_up_flags tun.ifr.ifr_flags }).1) :
    tunnel_set_up K w tun =
      { ret := 0,
         tun := { tun with ifr := (K.sys_ioctl_ifr
           (w.calls ++ [Call.sys_socket AF_INET SOCK_DGRAM 0])
           (K.sys_socket w.calls AF_INET SOCK_DGRAM 0) SIOCGIFFLAGS
           { tun.ifr with ifr_flags := set_up_flags tun.ifr.ifr_flags }).2 },
         world := { calls := w.calls ++ [Call.sys_socket AF_INET SOCK_DGRAM 0,
                      Call.sys_ioctl_ifr (K.sys_socket w.calls AF_INET SOCK_DGRAM 0) SIOCGIFFLAGS
                        { tun.ifr with ifr_flags := set_up_flags tun.ifr.ifr_flags },
                      Call.sys_close (K.sys_socket w.calls AF_INET SOCK_DGRAM 0)],
                    log := w.log ++
                      [LogLine.debug "Setting tunnel %s to UP." tun.ifr.ifr_name none] } } := by
  unfold tunnel_set_up
  simp only [say_calls, call_calls]
  rw [if_neg (not_lt.mpr hs), if_neg (not_lt.mpr hrep)]
  simp [World.call, World.say]

/-- The descriptor in the interface is not written by tunnel_set_up. -/
theorem tunnel_set_up_fd (K : Kernel) (w : World) (tun : tunnel_t) :
    (tunnel_set_up K w tun).tun.fd = tun.fd := by
  unfold tunnel_set_up
  dsimp only
  split_ifs <;> rfl

/-- The outcome of tunnel_set_down when socket() fails. -/
theorem tunnel_set_down_socket_failed (K : Kernel) (w : World) (tun : tunnel_t)
    (hs : K.sys_socket w.calls AF_INET SOCK_DGRAM 0 < 0) :
    tunnel_set_down K w tun =
      { ret := -1,
         tun := tun,
         world := { calls := w.calls ++ [Call.sys_socket AF_INET SOCK_DGRAM 0],
                    log := w.log ++ [LogLine.debug "Setting tunnel %s to UP." tun.ifr.ifr_name none,
                      LogLine.error "socket()"] } } := by
  unfold tunnel_set_down
  simp only [say_calls]
  rw [if_pos hs]
  simp [World.call, World.say]

/-- The outcome of tunnel_set_down when socket() succeeds and the flags ioctl fails. -/
theorem tunnel_set_down_ioctl_failed (K : Kernel) (w : World) (tun : tunnel_t)
    (hs : 0 ≤ K.sys_socket w.calls AF_INET SOCK_DGRAM 0)
    (hrep : (K.sys_ioctl_ifr (w.calls ++ [Call.sys_socket AF_INET SOCK_DGRAM 0])
      (K.sys_socket w.calls AF_INET SOCK_DGRAM 0) SIOCGIFFLAGS
      { tun.ifr with ifr_flags := set_down_flags tun.ifr.ifr_flags }).1 < 0) :
    tunnel_set_down K w tun =
      { ret := -1,
         tun := { tun with ifr := (K.sys_ioctl_ifr
           (w.calls ++ [Call.sys_socket AF_INET SOCK_DGRAM 0])
           (K.sys_socket w.calls AF_INET SOCK_DGRAM 0) SIOCGIFFLAGS
           { tun.ifr with ifr_flags := set_down_flags tun.ifr.ifr_flags }).2 },
         world := { calls := w.calls ++ [Call.sys_socket AF_INET SOCK_DGRAM 0,
                      Call.sys_ioctl_ifr (K.sys_socket w.calls AF_INET SOCK_DGRAM 0) SIOCGIFFLAGS
                        { tun.ifr with ifr_flags := set_down_flags tun.ifr.ifr_flags },
                      Call.sys_close (K.sys_socket w.calls AF_INET SOCK_DGRAM 0)],
                    log := w.log ++ [LogLine.debug "Setting tunnel %s to UP." tun.ifr.ifr_name none,
                      LogLine.error "ioctl()"] } } := by
  unfold tunnel_set_down
  simp only [say_calls, call_calls]
  rw [if_neg (not_lt.mpr hs), if_pos hrep]
  simp [World.call, World.say]

/-- The outcome of tunnel_set_down when socket() and the flags ioctl succeed. -/
theorem tunnel_set_down_done (K : Kernel) (w : World) (tun : tunnel_t)
    (hs : 0 ≤ K.sys_socket w.calls AF_INET SOCK_DGRAM 0)
    (hrep : 0 ≤ (K.sys_ioctl_ifr (w.calls ++ [Call.sys_socket AF_INET SOCK_DGRAM 0])
      (K.sys_socket w.calls AF_INET SOCK_DGRAM 0) SIOCGIFFLAGS
      { tun.ifr with ifr_flags := set_down_flags tun.ifr.ifr_flags }).1) :
    tunnel_set_down K w tun =
      { ret := 0,
         tun := { tun with ifr := (K.sys_ioctl_ifr
           (w.calls ++ [Call.sys_socket AF_INET SOCK_DGRAM 0])
           (K.sys_socket w.calls AF_INET SOCK_DGRAM 0) SIOCGIFFLAGS
           { tun.ifr with ifr_flags := set_down_flags tun.ifr.ifr_flags }).2 },
         world := { calls := w.calls ++ [Call.sys_socket AF_INET SOCK_DGRAM 0,
                      Call.sys_ioctl_ifr (K.sys_socket w.calls AF_INET SOCK_DGRAM 0) SIOCGIFFLAGS
                        { tun.ifr with ifr_flags := set_down_flags tun.ifr.ifr_flags },
                      Call.sys_close (K.sys_socket w.calls AF_INET SOCK_DGRAM 0)],
                    log := w.log ++
                      [LogLine.debug "Setting tunnel %s to UP." tun.ifr.ifr_name none] } } := by
  unfold tunnel_set_down
  simp only [say_calls, call_calls]
  rw [if_neg (not_lt.mpr hs), if_neg (not_lt.mpr hrep)]
  simp [World.call, World.say]

/-- The descriptor in the interface is not written by tunnel_set_down. -/
theorem tunnel_set_down_fd (K : Kernel) (w : World) (tun : tunnel_t) :
    (tunnel_set_down K w tun).tun.fd = tun.fd := by
  unfold tunnel_set_down
  dsimp only
  split_ifs <;> rfl

/-! ## tunnel_create: failure paths -/

/-- C1: tunnel_create leaves no device handle open when it returns -1.  When open()
fails it returns -1 having issued the open() call alone (no ioctl, no close).
When open() succeeds and the attach ioctl (TUNSETIFF) fails it returns -1 having
issued open(), the attach ioctl and one close() of the descriptor open()
returned, and no persistence request.  Every return of -1 is one of these two
cases. -/
theorem tunnel_create_failure_leaves_no_handle (K : Kernel) (w : World) (tun : tunnel_t)
    (type : tunnel_type_t) (name : Option (List Nat)) (persist : Bool) :
    let opened := Call.sys_open "/dev/net/tun" O_RDWR
    let fd := K.sys_open w.calls "/dev/net/tun" O_RDWR
    (fd < 0 → ∃ r, tunnel_create K w tun type name persist = some r ∧ r.ret = -1 ∧
        r.world.calls = w.calls ++ [opened]) ∧
    (∀ nm, 0 ≤ fd → copy_name (List.replicate IFNAMSIZ 0) name = some nm →
        (K.sys_ioctl_ifr (w.calls ++ [opened]) fd TUNSETIFF
          { ifr_name := nm, ifr_flags := attach_flags type }).1 < 0 →
        ∃ r, tunnel_create K w tun type name persist = some r ∧ r.ret = -1 ∧
          r.world.calls = w.calls ++ [opened,
            Call.sys_ioctl_ifr fd TUNSETIFF { ifr_name := nm, ifr_flags := attach_flags type },
            Call.sys_close fd]) ∧
    (∀ r, tunnel_create K w tun type name persist = some r → r.ret = -1 →
        (fd < 0 ∧ r.world.calls = w.calls ++ [opened]) ∨
        (0 ≤ fd ∧ ∃ nm, copy_name (List.replicate IFNAMSIZ 0) name = some nm ∧
          (K.sys_ioctl_ifr (w.calls ++ [opened]) fd TUNSETIFF
            { ifr_name := nm, ifr_flags := attach_flags type }).1 < 0 ∧
          r.world.calls = w.calls ++ [opened,
            Call.sys_ioctl_ifr fd TUNSETIFF { ifr_name := nm, ifr_flags := attach_flags type },
            Call.sys_close fd])) := by
  intro opened fd
  refine ⟨?_, ?_, ?_⟩
  · intro hfd
    exact ⟨_, tunnel_create_open_failed K w tun type name persist hfd, rfl, rfl⟩
  · intro nm hfd hcopy hrep
    exact ⟨_, tunnel_create_attach_failed K w tun type name persist nm hfd hcopy hrep, rfl, rfl⟩
  · intro r hr hret
    rcases lt_or_le fd 0 with hfd | hfd
    · left
      rw [tunnel_create_open_failed K w tun type name persist hfd] at hr
      have hr2 := Option.some.inj hr
      subst hr2
      exact ⟨hfd, rfl⟩
    · right
      refine ⟨hfd, ?_⟩
      cases hcopy : copy_name (List.replicate IFNAMSIZ 0) name with
      | none =>
        rw [tunnel_create_copy_undefined K w tun type name persist hfd hcopy] at hr
        exact absurd hr (by simp)
      | some nm =>
        refine ⟨nm, rfl, ?_⟩
        rcases lt_or_le (K.sys_ioctl_ifr (w.calls ++ [opened]) fd TUNSETIFF
            { ifr_name := nm, ifr_flags := attach_flags type }).1 0 with hrep | hrep
        · rw [tunnel_create_attach_failed K w tun type name persist nm hfd hcopy hrep] at hr
          have hr2 := Option.some.inj hr
          subst hr2
          exact ⟨hrep, rfl⟩
        · obtain ⟨r2, h2, hret2, _, _⟩ :=
            tunnel_create_attached K w tun type name persist nm hfd hcopy hrep
          rw [h2] at hr
          have hr2 := Option.some.inj hr
          subst hr2
          rw [hret2] at hret
          exact absurd hret (by decide)

/-- Witness for C1: a kernel whose open() fails, and a kernel whose open() answers 3
and whose attach ioctl fails. -/
theorem tunnel_create_failure_leaves_no_handle_witness :
    (∃ r, tunnel_create (replyKernel (-1) 0 0 4) World.start blank tunnel_type_t.TUN
        (some tun0_name) true = some r ∧ r.ret = -1 ∧
        r.world.calls = [Call.sys_open "/dev/net/tun" O_RDWR]) ∧
    (∃ r, tunnel_create (replyKernel 3 (-1) 0 4) World.start blank tunnel_type_t.TUN
        (some tun0_name) true = some r ∧ r.ret = -1 ∧
        r.world.calls = [Call.sys_open "/dev/net/tun" O_RDWR,
          Call.sys_ioctl_ifr 3 TUNSETIFF
            { ifr_name := tun0_name ++ List.replicate 12 0, ifr_flags := 0x1001 },
          Call.sys_close 3]) :=
  ⟨(tunnel_create_failure_leaves_no_handle (replyKernel (-1) 0 0 4) World.start blank
      tunnel_type_t.TUN (some tun0_name) true).1 (by decide),
   (tunnel_create_failure_leaves_no_handle (replyKernel 3 (-1) 0 4) World.start blank
      tunnel_type_t.TUN (some tun0_name) true).2.1 (tun0_name ++ List.replicate 12 0)
      (by decide) (by decide) (by decide)⟩

/-- C2 (as stated, refuted): with open() answering 3 and the attach ioctl succeeding,
a kernel that rejects the persistence request (-1) and a kernel that accepts it (0)
lead tunnel_create to the very same outcome: the same return value 0, the same
interface, the same calls and the same lines on stderr.  Nothing tells the
caller that the persistence request failed. -/
theorem tunnel_create_persistence_failure_not_reported :
    (replyKernel 3 0 (-1) 4).sys_ioctl_int
        [Call.sys_open "/dev/net/tun" O_RDWR,
         Call.sys_ioctl_ifr 3 TUNSETIFF
           { ifr_name := tun0_name ++ List.replicate 12 0, ifr_flags := 0x1001 }]
        3 TUNSETPERSIST 1 < 0 ∧
    tunnel_create (replyKernel 3 0 (-1) 4) World.start blank tunnel_type_t.TUN
        (some tun0_name) true =
      tunnel_create (replyKernel 3 0 0 4) World.start blank tunnel_type_t.TUN
        (some tun0_name) true ∧
    (tunnel_create (replyKernel 3 0 (-1) 4) World.start blank tunnel_type_t.TUN
        (some tun0_name) true).map (fun r => r.ret) = some 0 := by
  decide

/-- C2 (amended): when open() and the attach ioctl succeed, tunnel_create returns 0,
leaves the descriptor of open() and the request structure of the attach reply in
the interface, and has issued exactly open(), the attach ioctl and one persistence
request, so the device handle is not closed.  The return value, the interface
and the calls are the same whatever the kernel answers to the persistence
request. -/
theorem tunnel_create_ignores_persistence_outcome (K : Kernel) (w : World) (tun : tunnel_t)
    (type : tunnel_type_t) (name : Option (List Nat)) (persist : Bool) (nm : List Nat)
    (hopen : 0 ≤ K.sys_open w.calls "/dev/net/tun" O_RDWR)
    (hcopy : copy_name (List.replicate IFNAMSIZ 0) name = some nm)
    (hattach : 0 ≤ (K.sys_ioctl_ifr (w.calls ++ [Call.sys_open "/dev/net/tun" O_RDWR])
      (K.sys_open w.calls "/dev/net/tun" O_RDWR) TUNSETIFF
      { ifr_name := nm, ifr_flags := attach_flags type }).1) :
    let opened := Call.sys_open "/dev/net/tun" O_RDWR
    let fd := K.sys_open w.calls "/dev/net/tun" O_RDWR
    let req : ifreq := { ifr_name := nm, ifr_flags := attach_flags type }
    let issued := [opened, Call.sys_ioctl_ifr fd TUNSETIFF req,
      Call.sys_ioctl_int fd TUNSETPERSIST (if persist then 1 else 0)]
    ∃ r, tunnel_create K w tun type name persist = some r ∧ r.ret = 0 ∧ r.tun.fd = fd ∧
      r.tun.ifr = (K.sys_ioctl_ifr (w.calls ++ [opened]) fd TUNSETIFF req).2 ∧
      r.world.calls = w.calls ++ issued ∧
      (∀ d, Call.sys_close d ∉ issued) ∧
      ∀ answer : List Call → Int → Nat → Int → Int,
        ∃ r2, tunnel_create { K with sys_ioctl_int := answer } w tun type name persist = some r2 ∧
          r2.ret = r.ret ∧ r2.tun = r.tun ∧ r2.world.calls = r.world.calls := by
  intro opened fd req issued
  obtain ⟨r, hr, hret, htun, hcalls⟩ :=
    tunnel_create_attached K w tun type name persist nm hopen hcopy hattach
  refine ⟨r, hr, hret, ?_, ?_, hcalls, ?_, ?_⟩
  · rw [htun]
  · rw [htun]
  · intro d hd
    simp [issued, opened] at hd
  · intro answer
    obtain ⟨r2, hr2, hret2, htun2, hcalls2⟩ :=
      tunnel_create_attached { K with sys_ioctl_int := answer } w tun type name persist nm
        hopen hcopy hattach
    exact ⟨r2, hr2, hret2.trans hret.symm, htun2.trans htun.symm, hcalls2.trans hcalls.symm⟩

/-- Witness for the amended C2: open() answers 3, the attach ioctl succeeds and the
persistence request is rejected. -/
theorem tunnel_create_ignores_persistence_outcome_witness :
    ∃ r, tunnel_create (replyKernel 3 0 (-1) 4) World.start blank tunnel_type_t.TAP
        none true = some r ∧ r.ret = 0 ∧ r.tun.fd = 3 ∧
      r.world.calls = [Call.sys_open "/dev/net/tun" O_RDWR,
        Call.sys_ioctl_ifr 3 TUNSETIFF { ifr_name := List.replicate 16 0, ifr_flags := 0x1002 },
        Call.sys_ioctl_int 3 TUNSETPERSIST 1] := by
  obtain ⟨r, hr, h1, h2, _, h4, _⟩ :=
    tunnel_create_ignores_persistence_outcome (replyKernel 3 0 (-1) 4) World.start blank
      tunnel_type_t.TAP none true (List.replicate 16 0) (by decide) (by decide) (by decide)
  exact ⟨r, hr, h1, h2, h4⟩

/-! ## tunnel_set_persistence, tunnel_delete, tunnel_close -/

/-- C3 (the code at the failing input): the kernel rejects the persistence request
with -1, and tunnel_set_persistence returns 0 and writes no error line: the test
`0 < ioctl(...)` of line 62 is true for positive values only. -/
theorem tunnel_set_persistence_misses_rejection :
    (replyKernel 3 0 (-1) 4).sys_ioctl_int [] 3 TUNSETPERSIST 1 = -1 ∧
    (tunnel_set_persistence (replyKernel 3 0 (-1) 4) World.start created true).ret = 0 ∧
    (tunnel_set_persistence (replyKernel 3 0 (-1) 4) World.start created true).world.log =
      [LogLine.debug "Set tunnel %s persistency to %d" created.ifr.ifr_name (some 1)] := by
  decide

/-- C4 (the code at the failing input): tunnel_delete issues the one persistence
request with value 0 that tunnel_set_persistence(tun, false) issues and closes
nothing, but it hands no value to its caller, where tunnel_set_persistence
returns 0. -/
theorem tunnel_delete_returns_no_value :
    (tunnel_delete (replyKernel 3 0 0 4) World.start created).ret = none ∧
    (tunnel_set_persistence (replyKernel 3 0 0 4) World.start created false).ret = 0 ∧
    (tunnel_delete (replyKernel 3 0 0 4) World.start created).world.calls =
      [Call.sys_ioctl_int 3 TUNSETPERSIST 0] ∧
    (tunnel_set_persistence (replyKernel 3 0 0 4) World.start created false).world.calls =
      [Call.sys_ioctl_int 3 TUNSETPERSIST 0] := by
  decide

/-- C9: tunnel_close issues exactly one call, close() on the descriptor held in the
interface, writes nothing to stderr and leaves the interface as it was; it
returns nothing, and its outcome is the same whatever the kernel answers. -/
theorem tunnel_close_only_closes (K : Kernel) (w : World) (tun : tunnel_t) :
    (tunnel_close K w tun).world.calls = w.calls ++ [Call.sys_close tun.fd] ∧
    (tunnel_close K w tun).world.log = w.log ∧
    (tunnel_close K w tun).tun = tun ∧
    (tunnel_close K w tun).ret = () ∧
    ∀ K2 : Kernel, tunnel_close K2 w tun = tunnel_close K w tun :=
  ⟨rfl, rfl, rfl, rfl, fun _ => rfl⟩

/-! ## tunnel_set_up, tunnel_set_down -/

/-- C6 (the code at the failing input): the request tunnel_set_up and tunnel_set_down
issue on the control socket is SIOCGIFFLAGS (0x8913), the get-flags request, and
not SIOCSIFFLAGS (0x8914); it carries the name and the updated flags. -/
theorem set_up_down_issue_get_flags :
    (tunnel_set_up (replyKernel 3 0 0 4) World.start created).world.calls =
      [Call.sys_socket AF_INET SOCK_DGRAM 0,
       Call.sys_ioctl_ifr 4 SIOCGIFFLAGS
         { ifr_name := tun0_name ++ List.replicate 12 0, ifr_flags := 0x1041 },
       Call.sys_close 4] ∧
    (tunnel_set_down (replyKernel 3 0 0 4) World.start created).world.calls =
      [Call.sys_socket AF_INET SOCK_DGRAM 0,
       Call.sys_ioctl_ifr 4 SIOCGIFFLAGS
         { ifr_name := tun0_name ++ List.replicate 12 0, ifr_flags := 0x1000 },
       Call.sys_close 4] ∧
    SIOCGIFFLAGS ≠ SIOCSIFFLAGS := by
  refine ⟨by decide, ?_, by decide⟩
  have hflags : set_down_flags created.ifr.ifr_flags = 0x1000 := set_down_flags_created
  rw [tunnel_set_down_done (replyKernel 3 0 0 4) World.start created (by decide)
    (by show (0 : Int) ≤ 0; decide), hflags]
  rfl

/-- C7 (the code at the failing input): a create of kind TUN that succeeds leaves
TAP, the enumerator of value 0 that bzero wrote, in the type member. -/
theorem tunnel_create_leaves_type_zero :
    (tunnel_create (replyKernel 3 0 0 4) World.start blank tunnel_type_t.TUN
        (some tun0_name) false).map (fun r => (r.ret, r.tun.type)) =
      some (0, tunnel_type_t.TAP) ∧
    tunnel_type_t.TAP ≠ tunnel_type_t.TUN := by
  decide

/-- C5: tunnel_set_up and tunnel_set_down release the control socket on every path.
When socket() fails the function returns -1 having issued socket() alone.  When
socket() succeeds the calls issued are socket(), the flags ioctl on the socket and
one close() of the socket, and the function returns -1 when the ioctl fails and 0
when it succeeds.  The descriptor in the interface is unchanged, and the only
descriptor closed is the one socket() returned, so the device handle, a different
descriptor, is not closed. -/
theorem set_up_down_release_control_socket (K : Kernel) (w : World) (tun : tunnel_t)
    (op : Kernel → World → tunnel_t → Outcome Int)
    (hop : op = tunnel_set_up ∨ op = tunnel_set_down) :
    let sock := Call.sys_socket AF_INET SOCK_DGRAM 0
    let s := K.sys_socket w.calls AF_INET SOCK_DGRAM 0
    (s < 0 → (op K w tun).ret = -1 ∧ (op K w tun).world.calls = w.calls ++ [sock]) ∧
    (0 ≤ s → ∃ req,
      (op K w tun).world.calls =
        w.calls ++ [sock, Call.sys_ioctl_ifr s SIOCGIFFLAGS req, Call.sys_close s] ∧
      ((K.sys_ioctl_ifr (w.calls ++ [sock]) s SIOCGIFFLAGS req).1 < 0 → (op K w tun).ret = -1) ∧
      (0 ≤ (K.sys_ioctl_ifr (w.calls ++ [sock]) s SIOCGIFFLAGS req).1 → (op K w tun).ret = 0)) ∧
    (op K w tun).tun.fd = tun.fd ∧
    (∀ d, Call.sys_close d ∈ issued w (op K w tun).world → d = s) ∧
    (s ≠ tun.fd → Call.sys_close tun.fd ∉ issued w (op K w tun).world) := by
  intro sock s
  have key :
      (s < 0 → (op K w tun).ret = -1 ∧ (op K w tun).world.calls = w.calls ++ [sock]) ∧
      (0 ≤ s → ∃ req,
        (op K w tun).world.calls =
          w.calls ++ [sock, Call.sys_ioctl_ifr s SIOCGIFFLAGS req, Call.sys_close s] ∧
        ((K.sys_ioctl_ifr (w.calls ++ [sock]) s SIOCGIFFLAGS req).1 < 0 →
          (op K w tun).ret = -1) ∧
        (0 ≤ (K.sys_ioctl_ifr (w.calls ++ [sock]) s SIOCGIFFLAGS req).1 →
          (op K w tun).ret = 0)) ∧
      (op K w tun).tun.fd = tun.fd := by
    rcases hop with rfl | rfl
    · refine ⟨fun hs => ?_, fun hs => ⟨{ tun.ifr with ifr_flags := set_up_flags tun.ifr.ifr_flags },
        ?_, fun h => ?_, fun h => ?_⟩, ?_⟩
      · rw [tunnel_set_up_socket_failed K w tun hs]
        exact ⟨rfl, rfl⟩
      · rcases lt_or_le (K.sys_ioctl_ifr (w.calls ++ [sock]) s SIOCGIFFLAGS
          { tun.ifr with ifr_flags := set_up_flags tun.ifr.ifr_flags }).1 0 with h | h
        · rw [tunnel_set_up_ioctl_failed K w tun hs h]
        · rw [tunnel_set_up_done K w tun hs h]
      · rw [tunnel_set_up_ioctl_failed K w tun hs h]
      · rw [tunnel_set_up_done K w tun hs h]
      · exact tunnel_set_up_fd K w tun
    · refine ⟨fun hs => ?_, fun hs => ⟨{ tun.ifr with ifr_flags := set_down_flags tun.ifr.ifr_flags },
        ?_, fun h => ?_, fun h => ?_⟩, ?_⟩
      · rw [tunnel_set_down_socket_failed K w tun hs]
        exact ⟨rfl, rfl⟩
      · rcases lt_or_le (K.sys_ioctl_ifr (w.calls ++ [sock]) s SIOCGIFFLAGS
          { tun.ifr with ifr_flags := set_down_flags tun.ifr.ifr_flags }).1 0 with h | h
        · rw [tunnel_set_down_ioctl_failed K w tun hs h]
        · rw [tunnel_set_down_done K w tun hs h]
      · rw [tunnel_set_down_ioctl_failed K w tun hs h]
      · rw [tunnel_set_down_done K w tun hs h]
      · exact tunnel_set_down_fd K w tun
  obtain ⟨h1, h2, h3⟩ := key
  have honly : ∀ d, Call.sys_close d ∈ issued w (op K w tun).world → d = s := by
    intro d hd
    rcases lt_or_le s 0 with hs | hs
    · rw [issued, (h1 hs).2] at hd
      simp [sock] at hd
    · obtain ⟨req, hc, _⟩ := h2 hs
      rw [issued, hc] at hd
      simpa [sock] using hd
  exact ⟨h1, h2, h3, honly, fun hne hd => hne (honly _ hd).symm⟩

/-- Witness for C5: socket() answers 4 and the flags ioctl fails; socket() fails. -/
theorem set_up_down_release_control_socket_witness :
    (∃ req, (tunnel_set_up (replyKernel 3 (-1) 0 4) World.start created).world.calls =
        [Call.sys_socket AF_INET SOCK_DGRAM 0, Call.sys_ioctl_ifr 4 SIOCGIFFLAGS req,
          Call.sys_close 4] ∧
      (tunnel_set_up (replyKernel 3 (-1) 0 4) World.start created).ret = -1) ∧
    Call.sys_close 3 ∉
      issued World.start (tunnel_set_up (replyKernel 3 (-1) 0 4) World.start created).world ∧
    (tunnel_set_down (replyKernel 3 0 0 (-1)) World.start created).world.calls =
      [Call.sys_socket AF_INET SOCK_DGRAM 0] := by
  obtain ⟨_, h2, _, _, h5⟩ := set_up_down_release_control_socket (replyKernel 3 (-1) 0 4)
    World.start created tunnel_set_up (Or.inl rfl)
  obtain ⟨h6, _⟩ := set_up_down_release_control_socket (replyKernel 3 0 0 (-1))
    World.start created tunnel_set_down (Or.inr rfl)
  obtain ⟨req, hc, hfail, _⟩ := h2 (by decide)
  exact ⟨⟨req, hc, hfail (by show (-1 : Int) < 0; decide)⟩, h5 (by decide), (h6 (by decide)).2⟩

/-! ## tunnel_create: the attach request -/

theorem attach_flags_eq (type : tunnel_type_t) :
    attach_flags type =
      if type = tunnel_type_t.TUN then Int.lor IFF_TUN IFF_NO_PI else Int.lor IFF_TAP IFF_NO_PI := by
  cases type <;> decide

theorem copy_name_fits (s : List Nat) (h : strlen s ≤ 15) :
    copy_name (List.replicate IFNAMSIZ 0) (some s) =
      some (s.takeWhile (fun c => c != 0) ++ List.replicate (16 - strlen s) 0) := by
  have hlen : (s.takeWhile (fun c => c != 0)).length = strlen s := rfl
  unfold copy_name strncpy
  simp only [List.length_replicate, IFNAMSIZ]
  rw [if_pos (by omega)]
  have htake : (s.takeWhile (fun c => c != 0)).take (strlen s + 1) =
      s.takeWhile (fun c => c != 0) := List.take_of_length_le (by omega)
  simp only [htake, hlen, List.drop_replicate, List.append_assoc, List.append_replicate_replicate]
  have h1 : strlen s + 1 - strlen s + (16 - (strlen s + 1)) = 16 - strlen s := by omega
  rw [h1]

/-- C8: for a name that is absent or has at most 15 bytes, the copy of the name is
defined and tunnel_create returns.  When open() succeeds, the second call it
issues is the attach ioctl TUNSETIFF on the descriptor of open(), with flags
IFF_TUN|IFF_NO_PI for TUN and IFF_TAP|IFF_NO_PI for TAP and with a 16 byte name
field that holds the bytes of the requested name followed by zero bytes (16 zero
bytes when no name is given).  When the create succeeds and the kernel leaves the
name field as it got it, the name in the interface is that name field. -/
theorem tunnel_create_attach_request (K : Kernel) (w : World) (tun : tunnel_t)
    (type : tunnel_type_t) (name : Option (List Nat)) (persist : Bool)
    (hname : ∀ s, name = some s → strlen s ≤ 15)
    (hopen : 0 ≤ K.sys_open w.calls "/dev/net/tun" O_RDWR) :
    let opened := Call.sys_open "/dev/net/tun" O_RDWR
    let fd := K.sys_open w.calls "/dev/net/tun" O_RDWR
    let padded := padded_name name
    let flags : Int :=
      if type = tunnel_type_t.TUN then Int.lor IFF_TUN IFF_NO_PI else Int.lor IFF_TAP IFF_NO_PI
    let req : ifreq := { ifr_name := padded, ifr_flags := flags }
    padded.length = 16 ∧
    copy_name (List.replicate IFNAMSIZ 0) name = some padded ∧
    ∃ r rest, tunnel_create K w tun type name persist = some r ∧
      r.world.calls = w.calls ++ [opened, Call.sys_ioctl_ifr fd TUNSETIFF req] ++ rest ∧
      (r.ret = 0 →
        (K.sys_ioctl_ifr (w.calls ++ [opened]) fd TUNSETIFF req).2.ifr_name = padded →
        r.tun.ifr.ifr_name = padded) := by
  intro opened fd padded flags req
  have hlen : padded.length = 16 := by
    cases name with
    | none => simp [padded, padded_name]
    | some s =>
      have h := hname s rfl
      have hl : (s.takeWhile (fun c => c != 0)).length = strlen s := rfl
      simp only [padded, padded_name, List.length_append, List.length_replicate, hl]
      omega
  have hcopy : copy_name (List.replicate IFNAMSIZ 0) name = some padded := by
    cases name with
    | none => rfl
    | some s => exact copy_name_fits s (hname s rfl)
  have hreq : ({ ifr_name := padded, ifr_flags := attach_flags type } : ifreq) = req := by
    simp only [req, flags, attach_flags_eq]
  refine ⟨hlen, hcopy, ?_⟩
  rcases lt_or_le (K.sys_ioctl_ifr (w.calls ++ [opened]) fd TUNSETIFF req).1 0 with hrep | hrep
  · have h := tunnel_create_attach_failed K w tun type name persist padded hopen hcopy
      (by rw [hreq]; exact hrep)
    rw [hreq] at h
    have hne : ¬ ((-1 : Int) = 0) := by decide
    exact ⟨_, [Call.sys_close fd], h, by simp, fun h0 => absurd h0 hne⟩
  · obtain ⟨r, hr, _, htun, hcalls⟩ := tunnel_create_attached K w tun type name persist padded
      hopen hcopy (by rw [hreq]; exact hrep)
    rw [hreq] at htun hcalls
    refine ⟨r, [Call.sys_ioctl_int fd TUNSETPERSIST (if persist then 1 else 0)], hr, ?_, ?_⟩
    · rw [hcalls]; simp
    · intro _ hkeep
      rw [htun]
      exact hkeep

/-- Witness for C8: a create of kind TUN with the name "tun0" on a kernel that accepts
the request as it stands. -/
theorem tunnel_create_attach_request_witness :
    ∃ r rest, tunnel_create (replyKernel 3 0 0 4) World.start blank tunnel_type_t.TUN
        (some tun0_name) false = some r ∧
      r.world.calls = [Call.sys_open "/dev/net/tun" O_RDWR,
        Call.sys_ioctl_ifr 3 TUNSETIFF
          { ifr_name := [116, 117, 110, 48, 0, 0, 0, 0, 0, 0, 0, 0, 0, 0, 0, 0],
            ifr_flags := 0x1001 }] ++ rest ∧
      r.tun.ifr.ifr_name = [116, 117, 110, 48, 0, 0, 0, 0, 0, 0, 0, 0, 0, 0, 0, 0] := by
  obtain ⟨_, _, r, rest, hr, hcalls, hname⟩ :=
    tunnel_create_attach_request (replyKernel 3 0 0 4) World.start blank tunnel_type_t.TUN
      (some tun0_name) false (fun s hs => by cases hs; decide) (by decide)
  have hr0 : r.ret = 0 := by
    have h2 : (tunnel_create (replyKernel 3 0 0 4) World.start blank tunnel_type_t.TUN
        (some tun0_name) false).map (fun r => r.ret) = some 0 := by decide
    rw [hr] at h2
    exact Option.some.inj h2
  exact ⟨r, rest, hr, hcalls, hname hr0 rfl⟩

/-! ## The flags passed by tunnel_set_up and tunnel_set_down -/

/-- C10: when socket() succeeds, the flags ioctl of tunnel_set_up carries the old
flags with the bits of IFF_UP and IFF_RUNNING set and every other bit unchanged,
and the one of tunnel_set_down carries the old flags with both bits cleared and
every other bit unchanged.  The down update applied after the up update gives the
old flags with both bits cleared, which is the old value when neither bit was
set, and each update applied twice gives what it gives applied once. -/
theorem set_up_down_flag_updates (K : Kernel) (w : World) (tun : tunnel_t)
    (hf : isShort tun.ifr.ifr_flags)
    (hs : 0 ≤ K.sys_socket w.calls AF_INET SOCK_DGRAM 0) :
    let f := tun.ifr.ifr_flags
    let sock := Call.sys_socket AF_INET SOCK_DGRAM 0
    let s := K.sys_socket w.calls AF_INET SOCK_DGRAM 0
    (tunnel_set_up K w tun).world.calls =
      w.calls ++ [sock, Call.sys_ioctl_ifr s SIOCGIFFLAGS
        { ifr_name := tun.ifr.ifr_name, ifr_flags := set_up_flags f }, Call.sys_close s] ∧
    (tunnel_set_down K w tun).world.calls =
      w.calls ++ [sock, Call.sys_ioctl_ifr s SIOCGIFFLAGS
        { ifr_name := tun.ifr.ifr_name, ifr_flags := set_down_flags f }, Call.sys_close s] ∧
    (∀ i, (set_up_flags f).testBit i =
      (f.testBit i || (IFF_UP.testBit i || IFF_RUNNING.testBit i))) ∧
    (∀ i, (set_down_flags f).testBit i =
      (f.testBit i && !(IFF_UP.testBit i || IFF_RUNNING.testBit i))) ∧
    set_down_flags (set_up_flags f) = set_down_flags f ∧
    (Int.land f (Int.lor IFF_UP IFF_RUNNING) = 0 → set_down_flags (set_up_flags f) = f) ∧
    set_up_flags (set_up_flags f) = set_up_flags f ∧
    set_down_flags (set_down_flags f) = set_down_flags f := by
  intro f sock s
  have hup := isShort_set_up_flags f hf
  have hdown := isShort_set_down_flags f hf
  refine ⟨?_, ?_, testBit_set_up_flags f hf, testBit_set_down_flags f hf, ?_, ?_, ?_, ?_⟩
  · rcases lt_or_le (K.sys_ioctl_ifr (w.calls ++ [sock]) s SIOCGIFFLAGS
        { tun.ifr with ifr_flags := set_up_flags tun.ifr.ifr_flags }).1 0 with h | h
    · rw [tunnel_set_up_ioctl_failed K w tun hs h]
    · rw [tunnel_set_up_done K w tun hs h]
  · rcases lt_or_le (K.sys_ioctl_ifr (w.calls ++ [sock]) s SIOCGIFFLAGS
        { tun.ifr with ifr_flags := set_down_flags tun.ifr.ifr_flags }).1 0 with h | h
    · rw [tunnel_set_down_ioctl_failed K w tun hs h]
    · rw [tunnel_set_down_done K w tun hs h]
  · refine int_eq_of_testBit_eq _ _ fun i => ?_
    rw [testBit_set_down_flags _ hup, testBit_set_up_flags _ hf, testBit_set_down_flags _ hf]
    cases f.testBit i <;> cases IFF_UP.testBit i <;> cases IFF_RUNNING.testBit i <;> rfl
  · intro hclear
    refine int_eq_of_testBit_eq _ _ fun i => ?_
    have hbit : (f.testBit i && (IFF_UP.testBit i || IFF_RUNNING.testBit i)) = false := by
      rw [← Int.testBit_lor, ← Int.testBit_land, hclear]
      exact Nat.zero_testBit i
    rw [testBit_set_down_flags _ hup, testBit_set_up_flags _ hf]
    revert hbit
    cases f.testBit i <;> cases IFF_UP.testBit i <;> cases IFF_RUNNING.testBit i <;> simp
  · refine int_eq_of_testBit_eq _ _ fun i => ?_
    rw [testBit_set_up_flags _ hup, testBit_set_up_flags _ hf]
    cases f.testBit i <;> cases IFF_UP.testBit i <;> cases IFF_RUNNING.testBit i <;> rfl
  · refine int_eq_of_testBit_eq _ _ fun i => ?_
    rw [testBit_set_down_flags _ hdown, testBit_set_down_flags _ hf]
    cases f.testBit i <;> cases IFF_UP.testBit i <;> cases IFF_RUNNING.testBit i <;> rfl

/-- Witness for C10: the interface a create of kind TUN leaves (flags 0x1001), with
socket() answering 4. -/
theorem set_up_down_flag_updates_witness :
    (tunnel_set_up (replyKernel 3 0 0 4) World.start created).world.calls =
      [Call.sys_socket AF_INET SOCK_DGRAM 0,
       Call.sys_ioctl_ifr 4 SIOCGIFFLAGS
         { ifr_name := created.ifr.ifr_name, ifr_flags := set_up_flags 0x1001 },
       Call.sys_close 4] ∧
    set_down_flags (set_up_flags 0x1001) = set_down_flags 0x1001 ∧
    set_up_flags (set_up_flags 0x1001) = set_up_flags 0x1001 := by
  obtain ⟨h1, _, _, _, h5, _, h7, _⟩ :=
    set_up_down_flag_updates (replyKernel 3 0 0 4) World.start created (by decide) (by decide)
  exact ⟨h1, h5, h7⟩

end Tunnel
